import Mathlib

/-!
Shallow embedding of `src/YelixCloud.ts` (the `YelixCloud` class of the
yelix-cloud/yelix-sdk-js repository).

The TypeScript code runs on a single-threaded cooperative event loop:
methods interleave only at `await` suspension points.  Each method is
therefore embedded as its synchronous segments, and an explicit `step`
function over a small action type replays one atomic segment at a time:

* `Act.submit e`    — the host calls `logRequest(e)`;
* `Act.invoke e`    — the host invokes a bootstrap closure previously
  returned by `logRequest` for event `e` (the closure runs the private
  `initialize` method up to its first `await`);
* `Act.initDone r`  — the pending `fetch` of `initialize` settles with
  result `r`; the rest of `initialize` runs, then the awaiting bootstrap
  closure resumes (it pushes its own event and calls `processQueue`);
* `Act.sendDone h r` — a pending `sendRequest` promise settles; the
  completion handle `h` is resolved with `sendRequest`'s boolean result.

Promise continuations are executed at the step that settles the promise
they await, matching the microtask queue being emptied before the next
host action.  The `await response.json()` of the success path is folded
into `Act.initDone` (`InitResult.ok` carries the parsed `instance_id`;
a malformed body that throws during parsing is `InitResult.thrown`).

The `instanceId` field keeps its TypeScript type: a plain string whose
sentinel values are the literals `"Not-Initialized"`, `"Initializing"`
and `"Initialize-Failed"`; a successful response's `instance_id` string
is assigned to it unchecked, exactly as in the source.

Completion handles (the `resolve`/`reject` callbacks of `QueuedRequest`
and the promises returned to callers) are modelled by natural-number
handle ids allocated from `nextHandle`; a handle settles by appearing in
the `settled` transcript.  `trace` records, in issue order, every event
for which `sendRequest` was called — the delivery-order transcript.
`initCalls` counts outbound initialization requests (`fetch` is called
synchronously inside `initialize` before its `await`).  `apiKey`,
`BASE_URL` and `debug` only feed logging and request bodies, never the
control flow, so they are omitted.
-/

/-- The `RequestData` record of the source.  `duration` is a float in
TypeScript; no modelled operation computes with it, so it is carried as
an opaque integral value. -/
structure RequestData where
  startTime : Int
  path : String
  duration : Int
  method : String
  deriving DecidableEq

/-- Sample event used for concrete executions. -/
def rA : RequestData := { startTime := 1000, path := "/x", duration := 12, method := "GET" }

/-- Second sample event, distinct from `rA`. -/
def rB : RequestData := { startTime := 1001, path := "/y", duration := 5, method := "POST" }

/-- The `QueuedRequest` record: an event paired with its completion
handle (the `resolve`/`reject` pair is modelled by the handle id). -/
structure QueuedRequest where
  request : RequestData
  handle : Nat
  deriving DecidableEq

/-- The mutable fields of the `YelixCloud` class, plus the event-loop
transcript fields described in the module comment. -/
structure YelixCloud where
  instanceId : String
  requestQueue : List QueuedRequest
  isProcessingQueue : Bool
  nextHandle : Nat
  issuedActions : List RequestData
  pendingInit : Option RequestData
  pendingSends : List (Nat × RequestData)
  settled : List (Nat × Bool)
  trace : List RequestData
  initCalls : Nat
  deriving DecidableEq

/-- The state of a freshly constructed `YelixCloud` instance. -/
def initialState : YelixCloud :=
  { instanceId := "Not-Initialized"
    requestQueue := []
    isProcessingQueue := false
    nextHandle := 0
    issuedActions := []
    pendingInit := none
    pendingSends := []
    settled := []
    trace := []
    initCalls := 0 }

/-- What `logRequest` hands back to its caller: the bootstrap closure
(parameterized by its captured event), a promise backed by a queued
completion handle, or `sendRequest`'s own promise. -/
inductive LogOutcome where
  | bootstrap (e : RequestData)
  | queued (h : Nat)
  | direct (h : Nat)
  deriving DecidableEq

/-- Tests whether a `logRequest` return value is a bootstrap closure. -/
def isBootstrapAction : LogOutcome → Bool
  | LogOutcome.bootstrap _ => true
  | _ => false

/-- `this.requestQueue.push({ request, resolve, reject })` with a fresh
completion handle. -/
def enqueue (e : RequestData) (s : YelixCloud) : YelixCloud :=
  { s with requestQueue := s.requestQueue ++ [{ request := e, handle := s.nextHandle }]
           nextHandle := s.nextHandle + 1 }

/-- Issues one `sendRequest` call: the synchronous prefix of
`sendRequest` only logs, so issuing records the event in `trace` and
leaves the returned promise pending in `pendingSends` under handle `h`. -/
def issueSend (e : RequestData) (h : Nat) (s : YelixCloud) : YelixCloud :=
  { s with trace := s.trace ++ [e]
           pendingSends := s.pendingSends ++ [(h, e)] }

/-- The `while` loop of `processQueue`: the list argument is the queue
still to be drained; each iteration shifts the head and fires its
`sendRequest` without awaiting it. -/
def drainLoop : List QueuedRequest → YelixCloud → YelixCloud
  | [], s => s
  | q :: rest, s =>
      drainLoop rest (issueSend q.request q.handle { s with requestQueue := rest })

/-- The `processQueue` method (fully synchronous in the source: it never
awaits anything). -/
def processQueue (s : YelixCloud) : YelixCloud :=
  if s.isProcessingQueue || s.requestQueue.isEmpty then s
  else
    { drainLoop s.requestQueue { s with isProcessingQueue := true } with
      isProcessingQueue := false }

/-- The segment of the private `initialize` method before its first
suspension point: the precondition check, the assignment
`this.instanceId = 'Initializing'`, and the synchronous part of the
`fetch` call (the outbound request is issued here, counted by
`initCalls`).  `e` is the event captured by the bootstrap closure that
awaits this `initialize` call. -/
def initSync (e : RequestData) (s : YelixCloud) : YelixCloud :=
  if s.instanceId ≠ "Not-Initialized" then s
  else
    { s with instanceId := "Initializing"
             pendingInit := some e
             initCalls := s.initCalls + 1 }

/-- How the initialization `fetch` settles: a response with `ok` false
(`statusText` carried for fidelity), a parsed successful body carrying
`data.data.instance_id`, or a thrown network/parse error. -/
inductive InitResult where
  | ok (instance_id : String)
  | nonOk (statusText : String)
  | thrown
  deriving DecidableEq

/-- The segment of `initialize` after the `fetch` (and `json()`) await:
on a non-ok response it logs a warning and returns with no state change;
on success it assigns `instance_id` to `this.instanceId` and calls
`processQueue`; on a thrown error the `catch` block assigns
`'Initialize-Failed'`. -/
def initResume (r : InitResult) (s : YelixCloud) : YelixCloud :=
  match r with
  | InitResult.nonOk _ => s
  | InitResult.ok id => processQueue { s with instanceId := id }
  | InitResult.thrown => { s with instanceId := "Initialize-Failed" }

/-- The tail of the bootstrap closure returned by `logRequest`, which
runs once its `await this.initialize(...)` resolves: it pushes the
captured event onto the queue (allocating the promise it returned to
the caller) and calls `processQueue`. -/
def bootstrapResume (e : RequestData) (s : YelixCloud) : YelixCloud :=
  processQueue (enqueue e s)

/-- How one `sendRequest` body run settles: with its (currently
hard-coded) response object, or with a thrown error caught by its
`catch` block. -/
inductive TransportResult where
  | response (ok : Bool) (statusText : String)
  | thrown
  deriving DecidableEq

/-- The boolean result of the `sendRequest` body given how its awaited
response turned out: `if (!response.ok) return false; return true`,
with the whole body wrapped in `try/catch { return false }`.  The
function is total: no input makes it throw or reject. -/
def sendRequest : TransportResult → Bool
  | TransportResult.response ok _ => if !ok then false else true
  | TransportResult.thrown => false

/-- The `logRequest` method, dispatching on `this.instanceId`.  The
`'Not-Initialized'` branch only returns the bootstrap closure (recorded
in `issuedActions`); it does not touch the queue or the state.  The
`'Initializing'` branch pushes the event and returns its handle.  Every
other string (a real instance id or `'Initialize-Failed'`) falls through
to `return this.sendRequest(request)`. -/
def logRequest (s : YelixCloud) (e : RequestData) : YelixCloud × LogOutcome :=
  if s.instanceId = "Not-Initialized" then
    ({ s with issuedActions := s.issuedActions ++ [e] }, LogOutcome.bootstrap e)
  else if s.instanceId = "Initializing" then
    (enqueue e s, LogOutcome.queued s.nextHandle)
  else
    (issueSend e s.nextHandle { s with nextHandle := s.nextHandle + 1 },
     LogOutcome.direct s.nextHandle)

/-- Caller-visible status of a completion handle. -/
inductive HandleStatus where
  | unallocated
  | pending
  | resolvedWith (b : Bool)
  deriving DecidableEq

/-- Reads a handle's status off the transcript.  `reject` is never
reached for send promises because `sendRequest` is total, so settling
is always a resolution. -/
def handleStatus (s : YelixCloud) (h : Nat) : HandleStatus :=
  match s.settled.find? (fun p => p.1 == h) with
  | some p => HandleStatus.resolvedWith p.2
  | none => if h < s.nextHandle then HandleStatus.pending else HandleStatus.unallocated

/-- One atomic segment of the cooperative event loop (see the module
comment). -/
inductive Act where
  | submit (e : RequestData)
  | invoke (e : RequestData)
  | initDone (r : InitResult)
  | sendDone (h : Nat) (r : TransportResult)

/-- Executes one atomic segment.  `invoke` requires the closure to have
been handed out; invoking it runs `initialize` up to its first await
when the state is `'Not-Initialized'`, and otherwise `initialize`
returns at its precondition check so the closure's tail runs at once.
`initDone` runs the remainder of `initialize` and then the awaiting
closure's tail.  `sendDone` settles one in-flight `sendRequest`
promise, resolving its completion handle. -/
def step (s : YelixCloud) (a : Act) : YelixCloud :=
  match a with
  | Act.submit e => (logRequest s e).1
  | Act.invoke e =>
      if e ∈ s.issuedActions then
        if s.instanceId = "Not-Initialized" then initSync e s
        else bootstrapResume e s
      else s
  | Act.initDone r =>
      match s.pendingInit with
      | none => s
      | some e => bootstrapResume e (initResume r { s with pendingInit := none })
  | Act.sendDone h r =>
      if s.pendingSends.any (fun p => p.1 == h) then
        { s with pendingSends := s.pendingSends.filter (fun p => p.1 != h)
                 settled := s.settled ++ [(h, sendRequest r)] }
      else s

/-- Replays a list of segments from a state. -/
def run (s : YelixCloud) (l : List Act) : YelixCloud :=
  l.foldl step s

/-- A sequence of back-to-back `logRequest` calls, collecting what each
call returned. -/
def submitAll (s : YelixCloud) : List RequestData → YelixCloud × List LogOutcome
  | [] => (s, [])
  | e :: es =>
      let p := logRequest s e
      let q := submitAll p.1 es
      (q.1, p.2 :: q.2)

/-- Queue entries built from consecutive handle ids starting at `n` —
the shape the queue takes after a run of enqueues. -/
def tagHandles : Nat → List RequestData → List QueuedRequest
  | _, [] => []
  | n, e :: es => { request := e, handle := n } :: tagHandles (n + 1) es

/-- States reachable from a freshly constructed instance. -/
inductive Reachable : YelixCloud → Prop
  | base : Reachable initialState
  | next {s : YelixCloud} (hr : Reachable s) (a : Act) : Reachable (step s a)

/-- The execution in which the first submission's bootstrap closure is
invoked and the initialization response is non-ok: the controller is
left in `'Initializing'`, a second event is submitted (and queued), and
the one in-flight send settles.  Used for the stuck-state results. -/
def exStuckState : YelixCloud :=
  run initialState
    [Act.submit rA, Act.invoke rA,
     Act.initDone (InitResult.nonOk "Internal Server Error"),
     Act.submit rB,
     Act.sendDone 0 (TransportResult.response true "OK")]

/-- The execution in which initialization throws: the controller ends in
`'Initialize-Failed'`. -/
def exFailedState : YelixCloud :=
  step (step (step initialState (Act.submit rA)) (Act.invoke rA))
    (Act.initDone InitResult.thrown)

/-- A fresh instance whose state field has been set to
`'Initialize-Failed'`. -/
def exInitFailedBase : YelixCloud :=
  { initialState with instanceId := "Initialize-Failed" }

/-- A state with one queued entry, used to exercise a drain. -/
def exQueueState : YelixCloud :=
  { initialState with requestQueue := [{ request := rA, handle := 0 }], nextHandle := 1 }

theorem logRequest_not_init (s : YelixCloud) (e : RequestData)
    (h : s.instanceId = "Not-Initialized") :
    logRequest s e =
      ({ s with issuedActions := s.issuedActions ++ [e] }, LogOutcome.bootstrap e) := by
  rw [logRequest, h, if_pos rfl]

theorem logRequest_initializing_eq (s : YelixCloud) (e : RequestData)
    (h : s.instanceId = "Initializing") :
    logRequest s e = (enqueue e s, LogOutcome.queued s.nextHandle) := by
  rw [logRequest, h, if_neg (by decide), if_pos rfl]

theorem logRequest_pres (s : YelixCloud) (e : RequestData) :
    (logRequest s e).1.instanceId = s.instanceId ∧
    (logRequest s e).1.pendingInit = s.pendingInit ∧
    (logRequest s e).1.isProcessingQueue = s.isProcessingQueue := by
  unfold logRequest
  split
  · exact ⟨rfl, rfl, rfl⟩
  · split
    · exact ⟨rfl, rfl, rfl⟩
    · exact ⟨rfl, rfl, rfl⟩

theorem step_submit (s : YelixCloud) (e : RequestData) :
    step s (Act.submit e) = (logRequest s e).1 := rfl

theorem drainLoop_spec :
    ∀ (l : List QueuedRequest) (s : YelixCloud), s.requestQueue = l →
      drainLoop l s =
        { s with requestQueue := []
                 trace := s.trace ++ l.map (fun q => q.request)
                 pendingSends := s.pendingSends ++ l.map (fun q => (q.handle, q.request)) } := by
  intro l
  induction l with
  | nil =>
      intro s h
      cases s
      simp only at h
      simp [drainLoop, h]
  | cons q rest ih =>
      intro s _
      cases s
      simp only [drainLoop, issueSend]
      rw [ih _ rfl]
      simp [List.append_assoc]

theorem processQueue_spec (s : YelixCloud) (h : s.isProcessingQueue = false) :
    processQueue s =
      { s with requestQueue := []
               trace := s.trace ++ s.requestQueue.map (fun q => q.request)
               pendingSends :=
                 s.pendingSends ++ s.requestQueue.map (fun q => (q.handle, q.request)) } := by
  obtain ⟨ii, rq, ip, nh, ia, pi, ps, st, tr, ic⟩ := s
  simp only at h
  subst h
  cases rq with
  | nil => simp [processQueue]
  | cons q rest =>
      unfold processQueue
      simp only [List.isEmpty_cons, Bool.false_or]
      rw [if_neg (by simp)]
      rw [drainLoop_spec (q :: rest) _ rfl]

theorem drainLoop_pres :
    ∀ (l : List QueuedRequest) (s : YelixCloud),
      (drainLoop l s).instanceId = s.instanceId ∧
      (drainLoop l s).pendingInit = s.pendingInit := by
  intro l
  induction l with
  | nil => intro s; exact ⟨rfl, rfl⟩
  | cons q rest ih =>
      intro s
      simp only [drainLoop]
      exact (ih _)

theorem processQueue_pres (s : YelixCloud) :
    (processQueue s).instanceId = s.instanceId ∧
    (processQueue s).pendingInit = s.pendingInit := by
  unfold processQueue
  split
  · exact ⟨rfl, rfl⟩
  · exact (drainLoop_pres s.requestQueue { s with isProcessingQueue := true })

theorem bootstrapResume_pres (e : RequestData) (s : YelixCloud) :
    (bootstrapResume e s).instanceId = s.instanceId ∧
    (bootstrapResume e s).pendingInit = s.pendingInit := by
  unfold bootstrapResume
  exact (processQueue_pres (enqueue e s))

theorem run_nil (s : YelixCloud) : run s [] = s := rfl

theorem run_cons (s : YelixCloud) (a : Act) (l : List Act) :
    run s (a :: l) = run (step s a) l := rfl

theorem run_append (s : YelixCloud) (l1 l2 : List Act) :
    run s (l1 ++ l2) = run (run s l1) l2 := by
  simp [run, List.foldl_append]

theorem enqueue_instanceId (e : RequestData) (s : YelixCloud) :
    (enqueue e s).instanceId = s.instanceId := rfl

theorem step_invoke_new (s : YelixCloud) (e : RequestData)
    (hm : e ∈ s.issuedActions) (hni : s.instanceId = "Not-Initialized") :
    step s (Act.invoke e) = initSync e s := by
  simp [step, hm, hni]

theorem run_submits_initializing (es : List RequestData) :
    ∀ s : YelixCloud, s.instanceId = "Initializing" →
      run s (es.map Act.submit) =
        { s with requestQueue := s.requestQueue ++ tagHandles s.nextHandle es
                 nextHandle := s.nextHandle + es.length } := by
  induction es with
  | nil =>
      intro s h
      cases s
      simp [run, tagHandles]
  | cons e rest ih =>
      intro s h
      rw [List.map_cons, run_cons]
      have h1 : step s (Act.submit e) = enqueue e s := by
        rw [step_submit, logRequest_initializing_eq s e h]
      rw [h1, ih (enqueue e s) h]
      cases s
      simp [enqueue, tagHandles, List.append_assoc]
      omega

theorem initResume_pendingInit (r : InitResult) (s : YelixCloud) :
    (initResume r s).pendingInit = s.pendingInit := by
  cases r with
  | nonOk st => rfl
  | ok id => exact (processQueue_pres _).2
  | thrown => rfl

theorem step_sendDone_pres (s : YelixCloud) (h : Nat) (r : TransportResult) :
    (step s (Act.sendDone h r)).instanceId = s.instanceId ∧
    (step s (Act.sendDone h r)).pendingInit = s.pendingInit := by
  simp only [step]
  split
  · exact ⟨rfl, rfl⟩
  · exact ⟨rfl, rfl⟩

theorem reachable_pendingInit {s : YelixCloud} (hr : Reachable s) :
    ∀ e : RequestData, s.pendingInit = some e → s.instanceId = "Initializing" := by
  induction hr with
  | base =>
      intro e he
      exact absurd he (by simp [initialState])
  | next hr a ih =>
      rename_i s
      cases a with
      | submit e =>
          intro e2 he2
          have hp := logRequest_pres s e
          rw [step_submit] at he2 ⊢
          rw [hp.1]
          exact ih e2 (by rw [← hp.2.1]; exact he2)
      | invoke e =>
          intro e2 he2
          by_cases hm : e ∈ s.issuedActions
          · by_cases hni : s.instanceId = "Not-Initialized"
            · rw [step_invoke_new s e hm hni]
              unfold initSync
              rw [if_neg (fun hc => hc hni)]
            · have hstep : step s (Act.invoke e) = bootstrapResume e s := by
                simp [step, hm, hni]
              rw [hstep] at he2 ⊢
              rw [(bootstrapResume_pres e s).1]
              exact ih e2 (by rw [← (bootstrapResume_pres e s).2]; exact he2)
          · have hstep : step s (Act.invoke e) = s := by simp [step, hm]
            rw [hstep] at he2 ⊢
            exact ih e2 he2
      | initDone r =>
          intro e2 he2
          cases hp : s.pendingInit with
          | none =>
              have hstep : step s (Act.initDone r) = s := by simp [step, hp]
              rw [hstep] at he2 ⊢
              exact ih e2 he2
          | some e0 =>
              exfalso
              have hnone : (step s (Act.initDone r)).pendingInit = none := by
                have hstep : step s (Act.initDone r)
                    = bootstrapResume e0 (initResume r { s with pendingInit := none }) := by
                  simp [step, hp]
                rw [hstep, (bootstrapResume_pres _ _).2, initResume_pendingInit]
              rw [hnone] at he2
              exact Option.noConfusion he2
      | sendDone h r =>
          intro e2 he2
          have hp := step_sendDone_pres s h r
          rw [hp.1]
          exact ih e2 (by rw [← hp.2]; exact he2)

/-- C9 (confirmed): calling `processQueue` while a drain is already in
progress (`isProcessingQueue` true), or while the queue is empty,
returns immediately: the resulting state — queue, guard and every other
field — equals the state before the call. -/
theorem processQueue_redundant_noop (s : YelixCloud)
    (h : s.isProcessingQueue = true ∨ s.requestQueue = []) :
    processQueue s = s := by
  rcases h with h | h <;> simp [processQueue, h]

/-- C9 witness: a fresh instance has an empty queue, and `processQueue`
on it is the identity. -/
theorem processQueue_redundant_noop_witness :
    initialState.requestQueue = [] ∧ processQueue initialState = initialState :=
  ⟨rfl, processQueue_redundant_noop initialState (Or.inr rfl)⟩

/-- C10 (confirmed): `sendRequest` is total — it returns a boolean for
every way its awaited response can turn out, converting a non-ok
response and a thrown error to `false` — and a drain issues the
delivery call of every queued event regardless of any send's outcome,
so one delivery's failure cannot prevent subsequent deliveries. -/
theorem sendRequest_total_failures_false :
    (∀ r : TransportResult, sendRequest r = true ∨ sendRequest r = false) ∧
    (∀ st : String, sendRequest (TransportResult.response false st) = false) ∧
    sendRequest TransportResult.thrown = false ∧
    (∀ st : String, sendRequest (TransportResult.response true st) = true) ∧
    (∀ s : YelixCloud, s.isProcessingQueue = false →
      (processQueue s).trace = s.trace ++ s.requestQueue.map (fun q => q.request)) := by
  refine ⟨?_, fun st => rfl, rfl, fun st => rfl, ?_⟩
  · intro r
    cases r with
    | response ok st => cases ok <;> simp [sendRequest]
    | thrown => exact Or.inr rfl
  · intro s hs
    rw [processQueue_spec s hs]

/-- C10 witness: draining a state with one queued entry issues exactly
that entry's delivery call. -/
theorem sendRequest_total_failures_false_witness :
    exQueueState.isProcessingQueue = false ∧
    (processQueue exQueueState).trace
      = exQueueState.trace ++ exQueueState.requestQueue.map (fun q => q.request) :=
  ⟨rfl, sendRequest_total_failures_false.2.2.2.2 exQueueState rfl⟩

/-- C6 (confirmed): the first `initialize` call from the Uninitialized
state issues exactly one outbound initialization request and sets the
state to `'Initializing'` synchronously, before any suspension point; a
second call arriving before the first round-trip settles sees a
non-Uninitialized state and is a complete no-op — no network call, no
state change. -/
theorem no_double_init_call (s : YelixCloud) (e1 e2 : RequestData)
    (h : s.instanceId = "Not-Initialized") :
    (initSync e1 s).initCalls = s.initCalls + 1 ∧
    (initSync e1 s).instanceId = "Initializing" ∧
    initSync e2 (initSync e1 s) = initSync e1 s := by
  have h1 : initSync e1 s
      = { s with instanceId := "Initializing"
                 pendingInit := some e1
                 initCalls := s.initCalls + 1 } := by
    unfold initSync
    rw [if_neg (fun hc => hc h)]
  have hne : ("Initializing" : String) ≠ "Not-Initialized" := by decide
  refine ⟨by rw [h1], by rw [h1], ?_⟩
  rw [h1]
  unfold initSync
  rw [if_pos hne]

/-- C6 witness: two back-to-back `initialize` calls on a fresh instance
make one outbound request and the second call changes nothing. -/
theorem no_double_init_call_witness :
    initialState.instanceId = "Not-Initialized" ∧
    ((initSync rA initialState).initCalls = initialState.initCalls + 1 ∧
     (initSync rA initialState).instanceId = "Initializing" ∧
     initSync rB (initSync rA initialState) = initSync rA initialState) :=
  ⟨rfl, no_double_init_call initialState rA rB rfl⟩

/-- C8 (confirmed): when the state is `'Initialize-Failed'`, a
`logRequest` call does not queue the event, hands out no bootstrap
closure, makes no initialization attempt, and instead calls
`sendRequest` directly and returns its promise — and the resulting
state and outcome coincide with what any Ready-state instance id would
produce. -/
theorem logRequest_failed_forwards_direct (s : YelixCloud) (e : RequestData)
    (h : s.instanceId = "Initialize-Failed") :
    logRequest s e =
      ({ s with nextHandle := s.nextHandle + 1
                pendingSends := s.pendingSends ++ [(s.nextHandle, e)]
                trace := s.trace ++ [e] }, LogOutcome.direct s.nextHandle) ∧
    (∀ id : String, id ≠ "Not-Initialized" → id ≠ "Initializing" →
      logRequest { s with instanceId := id } e =
        ({ s with instanceId := id
                  nextHandle := s.nextHandle + 1
                  pendingSends := s.pendingSends ++ [(s.nextHandle, e)]
                  trace := s.trace ++ [e] }, LogOutcome.direct s.nextHandle)) := by
  constructor
  · rw [logRequest, h, if_neg (by decide), if_neg (by decide)]
    rfl
  · intro id hid1 hid2
    rw [logRequest]
    rw [show ({ s with instanceId := id } : YelixCloud).instanceId = id from rfl]
    rw [if_neg hid1, if_neg hid2]
    rfl

/-- C8 witness: the Failed-state direct-forwarding behavior at a
concrete Failed instance and event. -/
theorem logRequest_failed_forwards_direct_witness :
    exInitFailedBase.instanceId = "Initialize-Failed" ∧
    (logRequest exInitFailedBase rA =
      ({ exInitFailedBase with
           nextHandle := exInitFailedBase.nextHandle + 1
           pendingSends := exInitFailedBase.pendingSends ++ [(exInitFailedBase.nextHandle, rA)]
           trace := exInitFailedBase.trace ++ [rA] },
       LogOutcome.direct exInitFailedBase.nextHandle) ∧
     (∀ id : String, id ≠ "Not-Initialized" → id ≠ "Initializing" →
       logRequest { exInitFailedBase with instanceId := id } rA =
         ({ exInitFailedBase with
              instanceId := id
              nextHandle := exInitFailedBase.nextHandle + 1
              pendingSends := exInitFailedBase.pendingSends ++ [(exInitFailedBase.nextHandle, rA)]
              trace := exInitFailedBase.trace ++ [rA] },
          LogOutcome.direct exInitFailedBase.nextHandle))) :=
  ⟨rfl, logRequest_failed_forwards_direct exInitFailedBase rA rfl⟩

/-- C1 (corrected, amended): for every sequence of `logRequest` calls
issued while the state is `'Not-Initialized'` and before any bootstrap
closure is invoked, EVERY call returns a bootstrap closure — not
exactly one — because the `'Not-Initialized'` branch neither queues the
event nor changes the state; no call of the batch returns a queued
outcome handle. -/
theorem submitAll_uninit_all_bootstrap (s : YelixCloud) (es : List RequestData)
    (h : s.instanceId = "Not-Initialized") :
    (submitAll s es).2 = es.map LogOutcome.bootstrap ∧
    (submitAll s es).1.instanceId = "Not-Initialized" ∧
    (submitAll s es).1.requestQueue = s.requestQueue := by
  induction es generalizing s with
  | nil => exact ⟨rfl, h, rfl⟩
  | cons e rest ih =>
      have hl := logRequest_not_init s e h
      have ih2 := ih { s with issuedActions := s.issuedActions ++ [e] } h
      simp only [submitAll, hl, List.map_cons]
      exact ⟨by rw [ih2.1], ih2.2.1, ih2.2.2⟩

/-- C1 witness: a batch of two pre-bootstrap submissions on a fresh
instance, all returning bootstrap closures and leaving the queue
untouched. -/
theorem submitAll_uninit_all_bootstrap_witness :
    initialState.instanceId = "Not-Initialized" ∧
    ((submitAll initialState [rA, rB]).2 = [rA, rB].map LogOutcome.bootstrap ∧
     (submitAll initialState [rA, rB]).1.instanceId = "Not-Initialized" ∧
     (submitAll initialState [rA, rB]).1.requestQueue = initialState.requestQueue) :=
  ⟨rfl, submitAll_uninit_all_bootstrap initialState [rA, rB] rfl⟩

/-- C1 counterexample: two `logRequest` calls on a fresh instance, both
before any bootstrap invocation, yield TWO bootstrap closures — the
claimed count of exactly one is false. -/
theorem two_uninit_submits_yield_two_bootstrap_actions :
    ((submitAll initialState [rA, rB]).2.countP isBootstrapAction = 2) ∧
    ¬ ((submitAll initialState [rA, rB]).2.countP isBootstrapAction = 1) := by
  decide

/-- C2 (corrected, amended): a `logRequest` call made while the state is
`'Not-Initialized'` leaves the queue exactly as it was — nothing is
appended at submission time — and only returns the bootstrap closure;
the event is appended (queue length grows by one) inside the invoked
bootstrap closure, after `initialize` settles and immediately before
its drain attempt. -/
theorem submit_uninit_no_enqueue_until_invoke (s : YelixCloud) (e : RequestData)
    (h : s.instanceId = "Not-Initialized") :
    (logRequest s e).1.requestQueue = s.requestQueue ∧
    (logRequest s e).2 = LogOutcome.bootstrap e ∧
    (∀ s2 : YelixCloud, bootstrapResume e s2 = processQueue (enqueue e s2)) ∧
    (∀ s2 : YelixCloud, (enqueue e s2).requestQueue.length = s2.requestQueue.length + 1) := by
  rw [logRequest_not_init s e h]
  exact ⟨rfl, rfl, fun s2 => rfl, fun s2 => by simp [enqueue]⟩

/-- C2 witness: the Uninitialized-state submission behavior at a fresh
instance and a concrete event. -/
theorem submit_uninit_no_enqueue_until_invoke_witness :
    initialState.instanceId = "Not-Initialized" ∧
    ((logRequest initialState rA).1.requestQueue = initialState.requestQueue ∧
     (logRequest initialState rA).2 = LogOutcome.bootstrap rA ∧
     (∀ s2 : YelixCloud, bootstrapResume rA s2 = processQueue (enqueue rA s2)) ∧
     (∀ s2 : YelixCloud,
        (enqueue rA s2).requestQueue.length = s2.requestQueue.length + 1)) :=
  ⟨rfl, submit_uninit_no_enqueue_until_invoke initialState rA rfl⟩

/-- C2 counterexample: submitting on a fresh instance leaves the queue
empty (length 0), refuting the claimed length increase of one at the
submission call. -/
theorem submit_uninit_queue_not_incremented :
    (logRequest initialState rA).1.requestQueue.length = 0 ∧
    (logRequest initialState rA).2 = LogOutcome.bootstrap rA ∧
    ¬ ((logRequest initialState rA).1.requestQueue.length
        = initialState.requestQueue.length + 1) := by
  decide

theorem tagHandles_map_request (l : List RequestData) :
    ∀ n : Nat, (tagHandles n l).map (fun q => q.request) = l := by
  induction l with
  | nil => intro n; rfl
  | cons e rest ih => intro n; simp [tagHandles, ih]

/-- C4 (code bug): a non-ok initialization response leaves the state
exactly as it was — `initResume` on `nonOk` is the identity, so after
the first `initialize` call it stays `'Initializing'` instead of
becoming `'Initialize-Failed'`; only a thrown error reaches the `catch`
block that assigns `'Initialize-Failed'`. -/
theorem initResume_nonOk_keeps_state :
    (∀ (st : String) (s : YelixCloud), initResume (InitResult.nonOk st) s = s) ∧
    (initResume (InitResult.nonOk "Internal Server Error")
        (initSync rA initialState)).instanceId = "Initializing" ∧
    (initResume InitResult.thrown (initSync rA initialState)).instanceId
      = "Initialize-Failed" := by
  exact ⟨fun st s => rfl, by decide, by decide⟩

/-- C5 (code bug): after a non-ok initialization response the controller
is stuck in `'Initializing'`; an event submitted then is queued under a
completion handle that is never settled — the state shown here has no
pending initialization round-trip and no in-flight send, every
environment step (`initDone`, `sendDone`) fixes it, and the queued
event's handle is still pending, so without a further host action it
remains pending forever. -/
theorem stuck_state_pending_handle :
    exStuckState.instanceId = "Initializing" ∧
    exStuckState.requestQueue = [{ request := rB, handle := 1 }] ∧
    handleStatus exStuckState 1 = HandleStatus.pending ∧
    exStuckState.pendingInit = none ∧
    exStuckState.pendingSends = [] ∧
    (∀ r : InitResult, step exStuckState (Act.initDone r) = exStuckState) ∧
    (∀ (h : Nat) (r : TransportResult), step exStuckState (Act.sendDone h r) = exStuckState) := by
  exact ⟨by decide, by decide, by decide, by decide, by decide,
    fun r => rfl, fun h r => rfl⟩

/-- C3 (corrected, amended): when the first submission's bootstrap
closure is invoked and events are submitted while initialization is in
flight, the drain issues delivery calls for the in-flight-submitted
events in their submission order, and the bootstrap caller's own event
is issued LAST — after all of them — because it is enqueued only when
the suspended closure resumes; this holds whatever the initialization
result is. -/
theorem drain_order_bootstrap_event_last (e1 : RequestData) (es : List RequestData)
    (r : InitResult) :
    (run initialState
        ([Act.submit e1, Act.invoke e1] ++ es.map Act.submit ++ [Act.initDone r])).trace
      = es ++ [e1] := by
  have h1 : run initialState [Act.submit e1, Act.invoke e1]
      = { initialState with
            instanceId := "Initializing"
            issuedActions := [e1]
            pendingInit := some e1
            initCalls := 1 } := by
    rw [run_cons, step_submit, logRequest_not_init initialState e1 rfl]
    rw [run_cons, run_nil, step_invoke_new _ e1 (by simp) rfl]
    unfold initSync
    rw [if_neg (fun hc => hc rfl)]
    rfl
  have h2 : run { initialState with
            instanceId := "Initializing"
            issuedActions := [e1]
            pendingInit := some e1
            initCalls := 1 } (es.map Act.submit)
      = { initialState with
            instanceId := "Initializing"
            issuedActions := [e1]
            pendingInit := some e1
            initCalls := 1
            requestQueue := tagHandles 0 es
            nextHandle := es.length } := by
    rw [run_submits_initializing es _ rfl]
    simp [initialState]
  rw [run_append, run_append, h1, h2, run_cons, run_nil]
  cases r with
  | nonOk st =>
      show (bootstrapResume e1 _).trace = es ++ [e1]
      unfold bootstrapResume
      rw [processQueue_spec _ rfl]
      simp [initResume, initialState, enqueue, tagHandles_map_request]
  | ok id =>
      show (bootstrapResume e1 (processQueue _)).trace = es ++ [e1]
      rw [processQueue_spec _ rfl]
      unfold bootstrapResume
      rw [processQueue_spec _ rfl]
      simp [initialState, enqueue, tagHandles_map_request]
  | thrown =>
      show (bootstrapResume e1 _).trace = es ++ [e1]
      unfold bootstrapResume
      rw [processQueue_spec _ rfl]
      simp [initResume, initialState, enqueue, tagHandles_map_request]

/-- C3 counterexample: event `rA` is submitted first (bootstrap closure
invoked), `rB` is submitted while initialization is in flight; the
delivery calls are issued in the order `[rB, rA]`, not the submission
order `[rA, rB]`. -/
theorem drain_order_violation :
    (run initialState
        [Act.submit rA, Act.invoke rA, Act.submit rB,
         Act.initDone (InitResult.ok "abc123")]).trace = [rB, rA] ∧
    ([rB, rA] : List RequestData) ≠ [rA, rB] := by
  exact ⟨by decide, by decide⟩

/-- C7 (corrected, amended): once the state field is neither
`'Not-Initialized'` nor `'Initializing'` — i.e. `'Initialize-Failed'`
or a Ready instance id that is not itself a sentinel string — no
operation of any reachable execution changes it again.  (The original
claim fails for arbitrary response contents: a successful response
whose `instance_id` IS a sentinel string re-enters that sentinel state;
see the counterexample.) -/
theorem terminal_instance_stable (s : YelixCloud) (a : Act) (hr : Reachable s)
    (h1 : s.instanceId ≠ "Not-Initialized") (h2 : s.instanceId ≠ "Initializing") :
    (step s a).instanceId = s.instanceId := by
  cases a with
  | submit e => exact (logRequest_pres s e).1
  | invoke e =>
      by_cases hm : e ∈ s.issuedActions
      · have hstep : step s (Act.invoke e) = bootstrapResume e s := by
          simp [step, hm, h1]
        rw [hstep]
        exact (bootstrapResume_pres e s).1
      · simp [step, hm]
  | initDone r =>
      cases hp : s.pendingInit with
      | none => simp [step, hp]
      | some e0 => exact absurd (reachable_pendingInit hr e0 hp) h2
  | sendDone h r => exact (step_sendDone_pres s h r).1

/-- C7 witness: the reachable `'Initialize-Failed'` state is unchanged
by a further submission. -/
theorem terminal_instance_stable_witness :
    exFailedState.instanceId ≠ "Not-Initialized" ∧
    exFailedState.instanceId ≠ "Initializing" ∧
    (step exFailedState (Act.submit rB)).instanceId = exFailedState.instanceId :=
  ⟨by decide, by decide,
   terminal_instance_stable exFailedState (Act.submit rB)
     (((Reachable.base.next (Act.submit rA)).next (Act.invoke rA)).next
        (Act.initDone InitResult.thrown))
     (by decide) (by decide)⟩

/-- C7 counterexample: after the bootstrap closure is invoked the state
has left `'Not-Initialized'`; an initialization response carrying
`instance_id = "Not-Initialized"` sets it back to `'Not-Initialized'`,
and a further submission plus bootstrap invocation changes it yet again
— refuting both terminality conjuncts of the original claim. -/
theorem instance_returns_to_uninit :
    (run initialState [Act.submit rA, Act.invoke rA]).instanceId ≠ "Not-Initialized" ∧
    (run initialState
        [Act.submit rA, Act.invoke rA,
         Act.initDone (InitResult.ok "Not-Initialized")]).instanceId = "Not-Initialized" ∧
    (run initialState
        [Act.submit rA, Act.invoke rA, Act.initDone (InitResult.ok "Not-Initialized"),
         Act.submit rB, Act.invoke rB]).instanceId = "Initializing" := by
  exact ⟨by decide, by decide, by decide⟩
